import Mathlib

/-!
Verification of the table-lock inference engine of the pg-locks repository.

The definitions below are a shallow embedding of the TypeScript sources:
the SQL statement trees are modelled by inductive types mirroring exactly
the node tags and fields that the extractor reads, JavaScript `Set` objects
(insertion ordered, deduplicating) are modelled by `List String` together
with `setAdd`, and JavaScript object / `Map` lookups are modelled by
association lists with `alookup` / `mapSet`.  The functions keep the names
and the control flow of the source (`extractFromAST`, `getTableLockAnalysis`,
`checkLockConflict`, `compareQueries`, ...).
-/

/-- A `RangeVar` node: the extractor only ever reads its `relname` field,
which may be absent. -/
structure RangeVar where
  relname : Option String
deriving Repr, DecidableEq

/-- The `strength` field of a `LockingClause` node.  The source switches on
four known string values and leaves the command unchanged otherwise. -/
inductive LockStrength
  | forKeyShare | forShare | forNoKeyUpdate | forUpdate | otherStrength
deriving Repr, DecidableEq

mutual
inductive SelectStmt
  | mk (withClause : Option WithClause) (lockingClause : List (Option LockStrength))
       (fromClause : List FromItem) (whereClause : Option Expr)
       (targetList : List (Option Expr))
inductive InsertStmt
  | mk (relation : Option RangeVar) (selectStmt : Option Subquery)
       (onConflictClause : Bool)
inductive UpdateStmt
  | mk (relation : Option RangeVar) (fromClause : List FromItem)
       (whereClause : Option Expr) (targetList : List (Option Expr))
inductive DeleteStmt
  | mk (relation : Option RangeVar) (usingClause : List FromItem)
       (whereClause : Option Expr)
inductive WithClause
  | mk (ctes : List (Option CommonTableExpr))
inductive CommonTableExpr
  | mk (ctename : Option String) (ctequery : Option Subquery)
inductive FromItem
  | rangeVar (relname : Option String)
  | joinExpr (larg rarg : Option FromItem) (quals : Option Expr)
  | rangeSubselect (subquery : Option Subquery)
  | rangeFunction (functions : List (Option (List Expr)))
  | rangeTableFunc (docexpr rowexpr : Option Expr)
  | fromList (items : List FromItem)
  | otherFromItem
inductive Expr
  | subLink (subselect : Option Subquery)
  | boolExpr (args : List Expr)
  | aExpr (lexpr rexpr : Option Expr)
  | rowExpr (args : List Expr)
  | multiAssignRef (source : Option Expr)
  | funcCall (args : List Expr)
  | caseExpr (arg : Option Expr) (args : List (Option (Option Expr × Option Expr)))
             (defresult : Option Expr)
  | exprList (items : List Expr)
  | otherExpr
inductive Subquery
  | selectStmt (s : SelectStmt)
  | insertStmt (i : InsertStmt)
  | updateStmt (u : UpdateStmt)
  | deleteStmt (d : DeleteStmt)
  | otherSubquery
end

/-- A relation entry of a `TruncateStmt`: either wrapped in a `RangeVar` key or
used directly as a relation object (only its `relname` field is read). -/
inductive TruncRel
  | rangeVar (r : RangeVar)
  | bare (relname : Option String)
deriving Repr, DecidableEq

/-- The `def` field of an `AlterTableCmd` node, as far as the source reads it:
a `Constraint` (with `contype` and `pktable`), a `RangeVar`, or some other
object whose `relname` field may be read. -/
inductive AlterDef
  | constraintDef (contype : String) (pktable : Option RangeVar)
  | rangeVarDef (r : RangeVar)
  | otherDef (relname : Option String)
deriving Repr, DecidableEq

/-- An `AlterTableCmd` node: `subtype` string plus the optional `def` field
(called `defn` here because `def` is a Lean keyword). -/
structure AlterTableCmd where
  subtype : String
  defn : Option AlterDef
deriving Repr, DecidableEq

/-- A relation entry of a `VacuumStmt`: either carrying a `RangeVar` key or a
bare object with an optional `relname`. -/
inductive VacRel
  | rangeVar (r : RangeVar)
  | bare (relname : Option String)
deriving Repr, DecidableEq

/-- The statement-node variants recognized by `extractFromAST`, mirroring its
if/else chain on the node keys; `unknownStmt` stands for every node shape that
matches none of them. -/
inductive StmtNode
  | selectStmt (s : SelectStmt)
  | insertStmt (i : InsertStmt)
  | updateStmt (u : UpdateStmt)
  | deleteStmt (d : DeleteStmt)
  | indexStmt (concurrent : Bool) (relation : Option RangeVar)
  | createTrigStmt (relation : Option RangeVar)
  | refreshMatViewStmt (concurrent : Bool) (relation : Option RangeVar)
  | dropStmt (removeType : String) (objects : List (Option (List (Option String))))
  | truncateStmt (relations : List TruncRel)
  | alterTableStmt (relation : Option RangeVar) (cmds : List (Option AlterTableCmd))
  | vacuumStmt (options : List (Option String)) (rels : List VacRel)
  | mergeStmt (relation : Option RangeVar) (sourceRelation : Option FromItem)
              (joinCondition : Option Expr)
  | unknownStmt

/-- A statement as handed to `extractFromAST`: an optional top-level
`withClause` key next to the statement node itself. -/
structure Stmt where
  withClause : Option WithClause
  node : StmtNode

/-- `tables.add(x)` on a JavaScript `Set` backed by an insertion-ordered list:
append `x` unless already present. -/
def setAdd (tables : List String) (x : String) : List String :=
  if x ∈ tables then tables else tables ++ [x]

/-- Lookup in a string-keyed JavaScript object modelled as an association
list: the first binding of the key wins. -/
def alookup {α : Type} : List (String × α) → String → Option α
  | [], _ => none
  | (k, v) :: rest, key => if k == key then some v else alookup rest key

/-- `LockMode` record from `lockData.ts`. -/
structure LockMode where
  name : String
  description : String
  conflicts : List String
  statements : List String
  details : String
deriving Repr, DecidableEq

/-- The `LOCK_MODES` registry from `lockData.ts`, as an insertion-ordered
association list (JavaScript objects with string keys preserve insertion
order). -/
def LOCK_MODES : List (String × LockMode) := [
  ("ACCESS SHARE", {
    name := "ACCESS SHARE",
    description := "Only conflicts with ACCESS EXCLUSIVE lock. The lightest lock mode.",
    conflicts := ["ACCESS EXCLUSIVE"],
    statements := [
      "SELECT (read-only queries)",
      "SELECT with no locking clauses",
      "COPY TO",
      "EXPLAIN"
    ],
    details := "This is the most permissive lock mode. It allows all concurrent operations except ACCESS EXCLUSIVE. Only blocked by ACCESS EXCLUSIVE locks. This lock is acquired by read-only operations that do not modify data or require row-level locks." }),
  ("ROW SHARE", {
    name := "ROW SHARE",
    description := "Conflicts with EXCLUSIVE and ACCESS EXCLUSIVE locks.",
    conflicts := ["EXCLUSIVE", "ACCESS EXCLUSIVE"],
    statements := [
      "SELECT FOR UPDATE",
      "SELECT FOR SHARE",
      "SELECT FOR NO KEY UPDATE",
      "SELECT FOR KEY SHARE"
    ],
    details := "Acquired by SELECT commands that include row-level locking clauses. This lock mode allows concurrent reads and most writes, but prevents EXCLUSIVE and ACCESS EXCLUSIVE operations." }),
  ("ROW EXCLUSIVE", {
    name := "ROW EXCLUSIVE",
    description := "Conflicts with SHARE, SHARE ROW EXCLUSIVE, EXCLUSIVE, and ACCESS EXCLUSIVE locks.",
    conflicts := ["SHARE", "SHARE ROW EXCLUSIVE", "EXCLUSIVE", "ACCESS EXCLUSIVE"],
    statements := [
      "UPDATE",
      "DELETE",
      "INSERT",
      "INSERT ON CONFLICT",
      "MERGE",
      "COPY FROM"
    ],
    details := "This lock mode is acquired by commands that modify data. It allows concurrent reads and other row-exclusive operations, but conflicts with SHARE locks (preventing operations like index creation)." }),
  ("SHARE UPDATE EXCLUSIVE", {
    name := "SHARE UPDATE EXCLUSIVE",
    description := "Conflicts with SHARE UPDATE EXCLUSIVE, SHARE, SHARE ROW EXCLUSIVE, EXCLUSIVE, and ACCESS EXCLUSIVE locks.",
    conflicts := ["SHARE UPDATE EXCLUSIVE", "SHARE", "SHARE ROW EXCLUSIVE", "EXCLUSIVE", "ACCESS EXCLUSIVE"],
    statements := [
      "VACUUM (without FULL)",
      "ANALYZE",
      "CREATE INDEX CONCURRENTLY",
      "CREATE STATISTICS",
      "COMMENT ON",
      "REINDEX CONCURRENTLY"
    ],
    details := "This lock mode protects against concurrent schema changes and allows only one such operation at a time. It permits ordinary reads and writes but prevents concurrent VACUUM-type operations and schema modifications." }),
  ("SHARE", {
    name := "SHARE",
    description := "Conflicts with ROW EXCLUSIVE, SHARE UPDATE EXCLUSIVE, SHARE ROW EXCLUSIVE, EXCLUSIVE, and ACCESS EXCLUSIVE locks.",
    conflicts := ["ROW EXCLUSIVE", "SHARE UPDATE EXCLUSIVE", "SHARE ROW EXCLUSIVE", "EXCLUSIVE", "ACCESS EXCLUSIVE"],
    statements := [
      "CREATE INDEX (without CONCURRENTLY)"
    ],
    details := "This lock mode allows concurrent reads but prevents any data modification. Multiple SHARE locks can be held simultaneously, but they block all write operations." }),
  ("SHARE ROW EXCLUSIVE", {
    name := "SHARE ROW EXCLUSIVE",
    description := "Conflicts with ROW EXCLUSIVE, SHARE UPDATE EXCLUSIVE, SHARE, SHARE ROW EXCLUSIVE, EXCLUSIVE, and ACCESS EXCLUSIVE locks.",
    conflicts := ["ROW EXCLUSIVE", "SHARE UPDATE EXCLUSIVE", "SHARE", "SHARE ROW EXCLUSIVE", "EXCLUSIVE", "ACCESS EXCLUSIVE"],
    statements := [
      "CREATE TRIGGER",
      "ALTER TABLE ADD FOREIGN KEY",
      "ALTER TABLE DISABLE TRIGGER"
    ],
    details := "This lock mode is more restrictive than SHARE because it conflicts with SHARE locks and itself. It allows reads but prevents data modifications and any concurrent schema-changing operations." }),
  ("EXCLUSIVE", {
    name := "EXCLUSIVE",
    description := "Conflicts with ROW SHARE, ROW EXCLUSIVE, SHARE UPDATE EXCLUSIVE, SHARE, SHARE ROW EXCLUSIVE, EXCLUSIVE, and ACCESS EXCLUSIVE locks.",
    conflicts := ["ROW SHARE", "ROW EXCLUSIVE", "SHARE UPDATE EXCLUSIVE", "SHARE", "SHARE ROW EXCLUSIVE", "EXCLUSIVE", "ACCESS EXCLUSIVE"],
    statements := [
      "REFRESH MATERIALIZED VIEW CONCURRENTLY"
    ],
    details := "This lock mode allows only ACCESS SHARE locks (plain SELECT) to proceed concurrently. It blocks all other lock modes, including row-level locking SELECT statements." }),
  ("ACCESS EXCLUSIVE", {
    name := "ACCESS EXCLUSIVE",
    description := "Conflicts with ALL lock modes. The most restrictive lock.",
    conflicts := ["ACCESS SHARE", "ROW SHARE", "ROW EXCLUSIVE", "SHARE UPDATE EXCLUSIVE", "SHARE", "SHARE ROW EXCLUSIVE", "EXCLUSIVE", "ACCESS EXCLUSIVE"],
    statements := [
      "DROP TABLE",
      "TRUNCATE",
      "REINDEX (without CONCURRENTLY)",
      "CLUSTER",
      "VACUUM FULL",
      "LOCK TABLE (default mode)",
      "ALTER TABLE (most forms)",
      "ALTER TABLE SET TABLESPACE",
      "REFRESH MATERIALIZED VIEW"
    ],
    details := "This is the most restrictive lock mode. It conflicts with all other lock modes, effectively making the table inaccessible to any other transaction until the lock is released. This ensures exclusive access to the table." })
]

/-- The `COMMAND_LOCKS` mapping of SQL commands to lock-mode names from
`lockData.ts`. -/
def COMMAND_LOCKS : List (String × String) := [
  ("SELECT", "ACCESS SHARE"),
  ("SELECT FOR UPDATE", "ROW SHARE"),
  ("SELECT FOR NO KEY UPDATE", "ROW SHARE"),
  ("SELECT FOR SHARE", "ROW SHARE"),
  ("SELECT FOR KEY SHARE", "ROW SHARE"),
  ("INSERT", "ROW EXCLUSIVE"),
  ("INSERT ON CONFLICT", "ROW EXCLUSIVE"),
  ("UPDATE", "ROW EXCLUSIVE"),
  ("DELETE", "ROW EXCLUSIVE"),
  ("MERGE", "ROW EXCLUSIVE"),
  ("COPY TO", "ACCESS SHARE"),
  ("COPY FROM", "ROW EXCLUSIVE"),
  ("EXPLAIN", "ACCESS SHARE"),
  ("TRUNCATE", "ACCESS EXCLUSIVE"),
  ("DROP TABLE", "ACCESS EXCLUSIVE"),
  ("CREATE INDEX", "SHARE"),
  ("CREATE INDEX CONCURRENTLY", "SHARE UPDATE EXCLUSIVE"),
  ("REINDEX", "ACCESS EXCLUSIVE"),
  ("VACUUM", "SHARE UPDATE EXCLUSIVE"),
  ("VACUUM FULL", "ACCESS EXCLUSIVE"),
  ("ANALYZE", "SHARE UPDATE EXCLUSIVE"),
  ("ALTER TABLE", "ACCESS EXCLUSIVE"),
  ("ALTER TABLE ADD COLUMN", "SHARE UPDATE EXCLUSIVE"),
  ("ALTER TABLE ADD FOREIGN KEY", "SHARE ROW EXCLUSIVE"),
  ("ALTER TABLE VALIDATE CONSTRAINT", "SHARE UPDATE EXCLUSIVE"),
  ("ALTER TABLE ATTACH PARTITION", "SHARE UPDATE EXCLUSIVE"),
  ("ALTER TABLE SET TABLESPACE", "ACCESS EXCLUSIVE"),
  ("ALTER TABLE DISABLE TRIGGER", "SHARE ROW EXCLUSIVE"),
  ("CREATE TRIGGER", "SHARE ROW EXCLUSIVE"),
  ("REFRESH MATERIALIZED VIEW", "ACCESS EXCLUSIVE"),
  ("REFRESH MATERIALIZED VIEW CONCURRENTLY", "EXCLUSIVE")
]

/-- `LockInfo` record (`lockData.ts`), the externally consumed projection of a
`LockMode`. -/
structure LockInfo where
  lockMode : String
  description : String
  conflicts : List String
deriving Repr, DecidableEq

/-- `a || b` on a possibly-absent string, following JavaScript truthiness: an
absent value and the empty string both fall back to the default. -/
def orDefault (v : Option String) (d : String) : String :=
  match v with
  | some s => if s.length != 0 then s else d
  | none => d

/-- `getLockAnalysis` from `lockData.ts`: command to `LockInfo` via
`COMMAND_LOCKS` then `LOCK_MODES`; `none` models the `null` returns. -/
def getLockAnalysis (command : String) : Option LockInfo :=
  match alookup COMMAND_LOCKS command with
  | none => none
  | some lockMode =>
    match alookup LOCK_MODES lockMode with
    | none => none
    | some lockModeInfo =>
      some { lockMode := lockModeInfo.name,
             description := lockModeInfo.description,
             conflicts := lockModeInfo.conflicts }

/-- `extractTableFromRelation` from the parser: add `relation.relname` when
both the relation and its `relname` are present. -/
def extractTableFromRelation (relation : Option RangeVar) (tables : List String) :
    List String :=
  match relation with
  | some r =>
    match r.relname with
    | some n => setAdd tables n
    | none => tables
  | none => tables

mutual
/-- `analyzeSelectStatement`: pick the command from the first locking clause,
then walk the FROM clause, the WHERE clause, and the target list.  The source
calls the FROM-clause walker without forwarding `cteNames` (its default empty
set applies), and forwards `cteNames` to the expression walker; the set is
never read during traversal, so the parameter is inert but kept faithful. -/
def analyzeSelectStatement (s : SelectStmt) (tables : List String)
    (cteNames : List String) : String × List String :=
  match s with
  | .mk _ lockingClause fromClause whereClause targetList =>
    let command :=
      match lockingClause with
      | [] => "SELECT"
      | lc0 :: _ =>
        match lc0 with
        | some .forKeyShare => "SELECT FOR KEY SHARE"
        | some .forShare => "SELECT FOR SHARE"
        | some .forNoKeyUpdate => "SELECT FOR NO KEY UPDATE"
        | some .forUpdate => "SELECT FOR UPDATE"
        | some .otherStrength => "SELECT"
        | none => "SELECT"
    let tables := fromClauseEach fromClause tables []
    let tables :=
      match whereClause with
      | some e => extractTablesFromExpression e tables cteNames
      | none => tables
    let tables := targetListEach targetList tables cteNames
    (command, tables)

/-- `fromClause.forEach(fromItem => extractTablesFromFromClause(...))`. -/
def fromClauseEach (l : List FromItem) (tables : List String)
    (cteNames : List String) : List String :=
  match l with
  | [] => tables
  | f :: rest => fromClauseEach rest (extractTablesFromFromClause f tables cteNames) cteNames

/-- `targetList.forEach(target => ...)`: run each present `ResTarget.val`
through the expression walker. -/
def targetListEach (l : List (Option Expr)) (tables : List String)
    (cteNames : List String) : List String :=
  match l with
  | [] => tables
  | t :: rest =>
    let tables :=
      match t with
      | some e => extractTablesFromExpression e tables cteNames
      | none => tables
    targetListEach rest tables cteNames

/-- `extractTablesFromFromClause`: dispatch on the data-source node shape. -/
def extractTablesFromFromClause (f : FromItem) (tables : List String)
    (cteNames : List String) : List String :=
  match f with
  | .rangeVar relname =>
    match relname with
    | some n => setAdd tables n
    | none => tables
  | .joinExpr larg rarg quals =>
    let tables :=
      match larg with
      | some l => extractTablesFromFromClause l tables cteNames
      | none => tables
    let tables :=
      match rarg with
      | some r => extractTablesFromFromClause r tables cteNames
      | none => tables
    match quals with
    | some q => extractTablesFromExpression q tables cteNames
    | none => tables
  | .rangeSubselect subquery =>
    match subquery with
    | some sq => extractTablesFromSubquery sq tables cteNames
    | none => tables
  | .rangeFunction functions => rangeFunctionEach functions tables
  | .rangeTableFunc docexpr rowexpr =>
    let tables :=
      match docexpr with
      | some e => extractTablesFromExpression e tables []
      | none => tables
    match rowexpr with
    | some e => extractTablesFromExpression e tables []
    | none => tables
  | .fromList items => fromListEach items tables
  | .otherFromItem => tables

/-- `RangeFunction.functions.forEach`: each function with a present
`List.items` runs its items through the expression walker (no `cteNames`
forwarded in the source). -/
def rangeFunctionEach (l : List (Option (List Expr))) (tables : List String) :
    List String :=
  match l with
  | [] => tables
  | f :: rest =>
    let tables :=
      match f with
      | some items => exprItemsEach items tables []
      | none => tables
    rangeFunctionEach rest tables

/-- `FromItem.List.items.forEach` (comma-separated FROM items; no `cteNames`
forwarded in the source). -/
def fromListEach (l : List FromItem) (tables : List String) : List String :=
  match l with
  | [] => tables
  | f :: rest => fromListEach rest (extractTablesFromFromClause f tables [])

/-- Run a list of expressions through the expression walker in order. -/
def exprItemsEach (l : List Expr) (tables : List String) (cteNames : List String) :
    List String :=
  match l with
  | [] => tables
  | e :: rest => exprItemsEach rest (extractTablesFromExpression e tables cteNames) cteNames

/-- `CaseExpr.args.forEach`: each present `CaseWhen` contributes its test
expression and its result. -/
def caseWhenEach (l : List (Option (Option Expr × Option Expr)))
    (tables : List String) (cteNames : List String) : List String :=
  match l with
  | [] => tables
  | w :: rest =>
    let tables :=
      match w with
      | some (e, r) =>
        let tables :=
          match e with
          | some e1 => extractTablesFromExpression e1 tables cteNames
          | none => tables
        match r with
        | some r1 => extractTablesFromExpression r1 tables cteNames
        | none => tables
      | none => tables
    caseWhenEach rest tables cteNames

/-- `extractTablesFromExpression`: the shared expression walker looking for
embedded subqueries at every leaf. -/
def extractTablesFromExpression (e : Expr) (tables : List String)
    (cteNames : List String) : List String :=
  match e with
  | .subLink subselect =>
    match subselect with
    | some sq => extractTablesFromSubquery sq tables cteNames
    | none => tables
  | .boolExpr args => exprItemsEach args tables cteNames
  | .aExpr lexpr rexpr =>
    let tables :=
      match lexpr with
      | some l => extractTablesFromExpression l tables cteNames
      | none => tables
    match rexpr with
    | some r => extractTablesFromExpression r tables cteNames
    | none => tables
  | .rowExpr args => exprItemsEach args tables cteNames
  | .multiAssignRef source =>
    match source with
    | some s => extractTablesFromExpression s tables cteNames
    | none => tables
  | .funcCall args => exprItemsEach args tables cteNames
  | .caseExpr arg args defresult =>
    let tables :=
      match arg with
      | some a => extractTablesFromExpression a tables cteNames
      | none => tables
    let tables := caseWhenEach args tables cteNames
    match defresult with
    | some d => extractTablesFromExpression d tables cteNames
    | none => tables
  | .exprList items => exprItemsEach items tables cteNames
  | .otherExpr => tables

/-- `extractTablesFromSubquery`: dispatch on the nested statement shape.  The
nested UPDATE and DELETE branches walk relation, FROM/USING clause and WHERE
clause only (no target list), as in the source. -/
def extractTablesFromSubquery (sq : Subquery) (tables : List String)
    (cteNames : List String) : List String :=
  match sq with
  | .selectStmt s => (analyzeSelectStatement s tables cteNames).2
  | .insertStmt i => (analyzeInsertStatement i tables cteNames).2
  | .updateStmt u =>
    match u with
    | .mk relation fromClause whereClause _ =>
      let tables := extractTableFromRelation relation tables
      let tables := fromClauseEach fromClause tables cteNames
      match whereClause with
      | some e => extractTablesFromExpression e tables cteNames
      | none => tables
  | .deleteStmt d =>
    match d with
    | .mk relation usingClause whereClause =>
      let tables := extractTableFromRelation relation tables
      let tables := fromClauseEach usingClause tables cteNames
      match whereClause with
      | some e => extractTablesFromExpression e tables cteNames
      | none => tables
  | .otherSubquery => tables

/-- `analyzeInsertStatement`: target relation, optional INSERT ... SELECT
source, and the ON CONFLICT variant of the command. -/
def analyzeInsertStatement (i : InsertStmt) (tables : List String)
    (cteNames : List String) : String × List String :=
  match i with
  | .mk relation selectStmt onConflictClause =>
    let tables := extractTableFromRelation relation tables
    let tables :=
      match selectStmt with
      | some sq => extractTablesFromSubquery sq tables cteNames
      | none => tables
    let command := if onConflictClause then "INSERT ON CONFLICT" else "INSERT"
    (command, tables)
end

/-- `withClause.ctes.forEach` inside `extractTablesFromCTE`: for each present
`CommonTableExpr`, first record its alias in the exclusion set, then descend
into its body (which receives the already-extended exclusion set). -/
def cteEach (l : List (Option CommonTableExpr)) (tables cteNames : List String) :
    List String × List String :=
  match l with
  | [] => (tables, cteNames)
  | c :: rest =>
    match c with
    | some cte =>
      match cte with
      | .mk ctename ctequery =>
        let cteNames :=
          match ctename with
          | some n => setAdd cteNames n
          | none => cteNames
        let tables :=
          match ctequery with
          | some q => extractTablesFromSubquery q tables cteNames
          | none => tables
        cteEach rest tables cteNames
    | none => cteEach rest tables cteNames

/-- `extractTablesFromCTE`: returns the updated discovered-tables set and the
updated CTE-alias exclusion set. -/
def extractTablesFromCTE (wc : WithClause) (tables cteNames : List String) :
    List String × List String :=
  match wc with
  | .mk ctes => cteEach ctes tables cteNames

/-- Inner loop of `extractTablesFromDropStmt` over `obj.List.items`. -/
def dropItemsEach (items : List (Option String)) (tables : List String) :
    List String :=
  match items with
  | [] => tables
  | item :: rest =>
    let tables :=
      match item with
      | some sval => setAdd tables sval
      | none => tables
    dropItemsEach rest tables

/-- `extractTablesFromDropStmt`: every `String.sval` inside every
`obj.List.items` is a dropped table name. -/
def extractTablesFromDropStmt (objects : List (Option (List (Option String))))
    (tables : List String) : List String :=
  match objects with
  | [] => tables
  | obj :: rest =>
    let tables :=
      match obj with
      | some items => dropItemsEach items tables
      | none => tables
    extractTablesFromDropStmt rest tables

/-- `extractTablesFromTruncateStmt`: each relation either carries a `RangeVar`
key or is used directly as the relation object. -/
def extractTablesFromTruncateStmt (relations : List TruncRel)
    (tables : List String) : List String :=
  match relations with
  | [] => tables
  | rel :: rest =>
    let tables :=
      match rel with
      | .rangeVar r => extractTableFromRelation (some r) tables
      | .bare relname => extractTableFromRelation (some ⟨relname⟩) tables
    extractTablesFromTruncateStmt rest tables

/-- `VacuumStmt.rels.forEach`: prefer `rel.RangeVar.relname`, fall back to
`rel.relname`, and otherwise the `extractTableFromRelation` fallback adds
nothing (it reads the same absent `relname`). -/
def vacuumRelsEach (rels : List VacRel) (tables : List String) : List String :=
  match rels with
  | [] => tables
  | rel :: rest =>
    let tables :=
      match rel with
      | .rangeVar r =>
        match r.relname with
        | some n => setAdd tables n
        | none => tables
      | .bare relname =>
        match relname with
        | some n => setAdd tables n
        | none => tables
    vacuumRelsEach rest tables

/-- `analyzeAlterTableStatement`: refine the command from the first
`AlterTableCmd` subtype, extracting the foreign-key referenced table or the
attached partition where applicable. -/
def analyzeAlterTableStatement (relation : Option RangeVar)
    (cmds : List (Option AlterTableCmd)) (tables : List String) :
    String × List String :=
  let tables := extractTableFromRelation relation tables
  match cmds with
  | [] => ("ALTER TABLE", tables)
  | c0 :: _ =>
    match c0 with
    | none => ("ALTER TABLE", tables)
    | some cmd =>
      if cmd.subtype == "AT_AddColumn" then ("ALTER TABLE ADD COLUMN", tables)
      else if cmd.subtype == "AT_AddConstraint" then
        match cmd.defn with
        | some (.constraintDef contype pktable) =>
          if contype == "CONSTR_FOREIGN" then
            ("ALTER TABLE ADD FOREIGN KEY", extractTableFromRelation pktable tables)
          else ("ALTER TABLE", tables)
        | _ => ("ALTER TABLE", tables)
      else if cmd.subtype == "AT_ValidateConstraint" then
        ("ALTER TABLE VALIDATE CONSTRAINT", tables)
      else if cmd.subtype == "AT_AttachPartition" then
        match cmd.defn with
        | some (.rangeVarDef r) =>
          ("ALTER TABLE ATTACH PARTITION", extractTableFromRelation (some r) tables)
        | some (.constraintDef _ _) => ("ALTER TABLE ATTACH PARTITION", tables)
        | some (.otherDef relname) =>
          ("ALTER TABLE ATTACH PARTITION", extractTableFromRelation (some ⟨relname⟩) tables)
        | none => ("ALTER TABLE ATTACH PARTITION", tables)
      else if cmd.subtype == "AT_SetTableSpace" then
        ("ALTER TABLE SET TABLESPACE", tables)
      else if cmd.subtype == "AT_DisableTrig" then
        ("ALTER TABLE DISABLE TRIGGER", tables)
      else ("ALTER TABLE", tables)

/-- The body of `extractFromAST` before the final filter: returns the
command, the discovered-tables set, and the CTE-alias exclusion set. -/
def extractAccum (statement : Stmt) : String × List String × List String :=
  let acc :=
    match statement.withClause with
    | some wc => extractTablesFromCTE wc [] []
    | none => ([], [])
  let tables := acc.1
  let cteNames := acc.2
  match statement.node with
  | .selectStmt s =>
    let acc2 :=
      match s with
      | .mk (some wc) _ _ _ _ => extractTablesFromCTE wc tables cteNames
      | .mk none _ _ _ _ => (tables, cteNames)
    let r := analyzeSelectStatement s acc2.1 acc2.2
    (r.1, r.2, acc2.2)
  | .insertStmt i =>
    let r := analyzeInsertStatement i tables cteNames
    (r.1, r.2, cteNames)
  | .updateStmt u =>
    match u with
    | .mk relation fromClause whereClause targetList =>
      let tables := extractTableFromRelation relation tables
      let tables := fromClauseEach fromClause tables cteNames
      let tables :=
        match whereClause with
        | some e => extractTablesFromExpression e tables cteNames
        | none => tables
      let tables := targetListEach targetList tables cteNames
      ("UPDATE", tables, cteNames)
  | .deleteStmt d =>
    match d with
    | .mk relation usingClause whereClause =>
      let tables := extractTableFromRelation relation tables
      let tables := fromClauseEach usingClause tables cteNames
      let tables :=
        match whereClause with
        | some e => extractTablesFromExpression e tables cteNames
        | none => tables
      ("DELETE", tables, cteNames)
  | .indexStmt concurrent relation =>
    let command := if concurrent then "CREATE INDEX CONCURRENTLY" else "CREATE INDEX"
    (command, extractTableFromRelation relation tables, cteNames)
  | .createTrigStmt relation =>
    ("CREATE TRIGGER", extractTableFromRelation relation tables, cteNames)
  | .refreshMatViewStmt concurrent relation =>
    let command :=
      if concurrent then "REFRESH MATERIALIZED VIEW CONCURRENTLY"
      else "REFRESH MATERIALIZED VIEW"
    (command, extractTableFromRelation relation tables, cteNames)
  | .dropStmt removeType objects =>
    if removeType == "OBJECT_TABLE" then
      ("DROP TABLE", extractTablesFromDropStmt objects tables, cteNames)
    else ("DROP", tables, cteNames)
  | .truncateStmt relations =>
    ("TRUNCATE", extractTablesFromTruncateStmt relations tables, cteNames)
  | .alterTableStmt relation cmds =>
    let r := analyzeAlterTableStatement relation cmds tables
    (r.1, r.2, cteNames)
  | .vacuumStmt options rels =>
    let command :=
      if options.any (fun opt => opt == some "full") then "VACUUM FULL" else "VACUUM"
    (command, vacuumRelsEach rels tables, cteNames)
  | .mergeStmt relation sourceRelation joinCondition =>
    let tables := extractTableFromRelation relation tables
    let tables :=
      match sourceRelation with
      | some f => extractTablesFromFromClause f tables cteNames
      | none => tables
    let tables :=
      match joinCondition with
      | some e => extractTablesFromExpression e tables cteNames
      | none => tables
    ("MERGE", tables, cteNames)
  | .unknownStmt => ("UNKNOWN", tables, cteNames)

/-- The result record of `extractFromAST`. -/
structure ASTExtractionResult where
  command : String
  tables : List String
deriving Repr, DecidableEq

/-- `extractFromAST`: run the accumulating traversal, then filter out empty
names and CTE aliases from the discovered table set. -/
def extractFromAST (statement : Stmt) : ASTExtractionResult :=
  let acc := extractAccum statement
  { command := acc.1,
    tables := acc.2.1.filter
      (fun table => decide (table.length > 0) && !(acc.2.2.contains table)) }

/-- JavaScript truthiness of an optional string: absent and empty are falsy. -/
def truthyStr : Option String → Bool
  | some s => s.length != 0
  | none => false

/-- `isPrimaryTable` from the parser: an explicit (truthy) hint wins; under
`TRUNCATE` every table is primary; otherwise the first extracted table is
primary (and nothing is primary when the table list is empty, since comparing
against the undefined `allTables[0]` is false in the source). -/
def isPrimaryTable (table command : String) (primaryTable : Option String)
    (allTables : List String) : Bool :=
  if truthyStr primaryTable then table == primaryTable.getD ""
  else if ["TRUNCATE"].contains command then true
  else
    match allTables with
    | [] => false
    | t0 :: _ => table == t0

/-- Structural character-list prefix test, modelling
`command.startsWith(p)` of the source (the library implementation does not
reduce inside the kernel). -/
def charsLeading : List Char → List Char → Bool
  | _, [] => true
  | [], _ :: _ => false
  | c :: cs, d :: ds => c == d && charsLeading cs ds

/-- `s.startsWith(p)` on strings. -/
def strStartsWith (s p : String) : Bool :=
  charsLeading s.data p.data

/-- The lock mode chosen for one table inside the `getTableLockAnalysis`
loop.  Both arms of the foreign-key special case assign the same mode, as in
the source. -/
def tableLockFor (table command : String) (primaryTable : Option String)
    (allTables : List String) : String :=
  if command == "ALTER TABLE ADD FOREIGN KEY" && allTables.length == 2 then
    if isPrimaryTable table command primaryTable allTables then "SHARE ROW EXCLUSIVE"
    else "SHARE ROW EXCLUSIVE"
  else if strStartsWith command "SELECT FOR" then
    orDefault (alookup COMMAND_LOCKS command) "ACCESS SHARE"
  else if isPrimaryTable table command primaryTable allTables then
    orDefault (alookup COMMAND_LOCKS command) "ACCESS SHARE"
  else "ACCESS SHARE"

/-- `TableLockInfo` record from the parser. -/
structure TableLockInfo where
  table : String
  lockMode : String
  description : String
  conflicts : List String
deriving Repr, DecidableEq

/-- The `for (const table of tables)` loop of `getTableLockAnalysis`: a table
whose resolved lock mode is missing from `LOCK_MODES` would be dropped. -/
def tableLockLoop (tables : List String) (command : String)
    (primaryTable : Option String) (allTables : List String) : List TableLockInfo :=
  match tables with
  | [] => []
  | table :: rest =>
    let lockMode := tableLockFor table command primaryTable allTables
    let entry :=
      match alookup LOCK_MODES lockMode with
      | some lockModeInfo =>
        [{ table := table, lockMode := lockMode,
           description := lockModeInfo.description,
           conflicts := lockModeInfo.conflicts }]
      | none => []
    entry ++ tableLockLoop rest command primaryTable allTables

/-- `getTableLockAnalysis` from the parser. -/
def getTableLockAnalysis (tables : List String) (command : String)
    (primaryTable : Option String) : List TableLockInfo :=
  tableLockLoop tables command primaryTable tables

/-- `checkLockConflict` from `queryComparison.ts`: unknown lock modes are
assumed compatible, otherwise conflict in either direction counts. -/
def checkLockConflict (lockMode1 lockMode2 : String) : Bool :=
  match alookup LOCK_MODES lockMode1, alookup LOCK_MODES lockMode2 with
  | some lock1Info, some lock2Info =>
    lock1Info.conflicts.contains lockMode2 || lock2Info.conflicts.contains lockMode1
  | _, _ => false

/-- `TableConflict` record from `queryComparison.ts`. -/
structure TableConflict where
  table : String
  query1Lock : String
  query2Lock : String
  conflictReason : String
deriving Repr, DecidableEq

/-- `CompatibleTable` record from `queryComparison.ts`. -/
structure CompatibleTable where
  table : String
  query1Lock : String
  query2Lock : String
deriving Repr, DecidableEq

/-- The `uniqueTables` component of a comparison result. -/
structure UniqueTables where
  query1Only : List String
  query2Only : List String
deriving Repr, DecidableEq

/-- `QueryComparisonResult` record from `queryComparison.ts`. -/
structure QueryComparisonResult where
  isCompatible : Bool
  conflictingTables : List TableConflict
  compatibleTables : List CompatibleTable
  uniqueTables : UniqueTables
deriving Repr, DecidableEq

/-- `QueryAnalysisInput` record from `queryComparison.ts`. -/
structure QueryAnalysisInput where
  query : String
  tables : List TableLockInfo
  error : Option String
  isValid : Bool

/-- `Map.set` on a JavaScript `Map` modelled as an insertion-ordered
association list: overwrite in place, or append a new binding. -/
def mapSet (m : List (String × TableLockInfo)) (k : String) (v : TableLockInfo) :
    List (String × TableLockInfo) :=
  if m.any (fun p => p.1 == k) then
    m.map (fun p => if p.1 == k then (k, v) else p)
  else m ++ [(k, v)]

/-- `tables.forEach(table => map.set(table.table, table))`. -/
def buildTableMap (tables : List TableLockInfo) : List (String × TableLockInfo) :=
  tables.foldl (fun m t => mapSet m t.table t) []

/-- `new Set([...keys1, ...keys2])`: insertion-ordered deduplication. -/
def dedupAppend (l : List String) : List String :=
  l.foldl setAdd []

/-- The `for (const tableName of allTables)` loop of `compareQueries`,
returning the four result lists in iteration order. -/
def compareLoop (allTables : List String) (m1 m2 : List (String × TableLockInfo)) :
    List TableConflict × List CompatibleTable × List String × List String :=
  match allTables with
  | [] => ([], [], [], [])
  | tableName :: rest =>
    let table1Info := alookup m1 tableName
    let table2Info := alookup m2 tableName
    let r := compareLoop rest m1 m2
    match table1Info, table2Info with
    | some i1, some i2 =>
      if checkLockConflict i1.lockMode i2.lockMode then
        ({ table := tableName, query1Lock := i1.lockMode, query2Lock := i2.lockMode,
           conflictReason := i1.lockMode ++ " conflicts with " ++ i2.lockMode } :: r.1,
         r.2.1, r.2.2.1, r.2.2.2)
      else
        (r.1,
         { table := tableName, query1Lock := i1.lockMode, query2Lock := i2.lockMode } :: r.2.1,
         r.2.2.1, r.2.2.2)
    | some _, none => (r.1, r.2.1, tableName :: r.2.2.1, r.2.2.2)
    | none, some _ => (r.1, r.2.1, r.2.2.1, tableName :: r.2.2.2)
    | none, none => (r.1, r.2.1, r.2.2.1, r.2.2.2)

/-- `compareQueries` from `queryComparison.ts`. -/
def compareQueries (query1Analysis query2Analysis : QueryAnalysisInput) :
    QueryComparisonResult :=
  if !query1Analysis.isValid || !query2Analysis.isValid then
    { isCompatible := false, conflictingTables := [], compatibleTables := [],
      uniqueTables := { query1Only := [], query2Only := [] } }
  else
    let query1TableMap := buildTableMap query1Analysis.tables
    let query2TableMap := buildTableMap query2Analysis.tables
    let allTables :=
      dedupAppend (query1TableMap.map (fun p => p.1) ++ query2TableMap.map (fun p => p.1))
    let r := compareLoop allTables query1TableMap query2TableMap
    { isCompatible := r.1.length == 0,
      conflictingTables := r.1,
      compatibleTables := r.2.1,
      uniqueTables := { query1Only := r.2.2.1, query2Only := r.2.2.2 } }

/-- The aliases introduced by the `WITH` clause items, in order.  This mirrors
only the alias-recording part of `extractTablesFromCTE` and is used to state
the CTE exclusion law independently of the table traversal. -/
def cteAliasAccum (l : List (Option CommonTableExpr)) (cteNames : List String) :
    List String :=
  match l with
  | [] => cteNames
  | c :: rest =>
    match c with
    | some (.mk (some n) _) => cteAliasAccum rest (setAdd cteNames n)
    | some (.mk none _) => cteAliasAccum rest cteNames
    | none => cteAliasAccum rest cteNames

/-- The aliases introduced by one `WITH` clause. -/
def cteAliasList (wc : WithClause) (cteNames : List String) : List String :=
  match wc with
  | .mk ctes => cteAliasAccum ctes cteNames

/-- All common-table-expression aliases introduced by the `WITH` clauses that
`extractFromAST` consults for a statement: the top-level one and, for a SELECT
statement, the one on the `SelectStmt` node. -/
def cteAliases (statement : Stmt) : List String :=
  let base :=
    match statement.withClause with
    | some wc => cteAliasList wc []
    | none => []
  match statement.node with
  | .selectStmt (.mk (some wc) _ _ _ _) => cteAliasList wc base
  | _ => base

/-- AST of `UPDATE employees SET salary = salary * 1.05 FROM departments,
locations WHERE employees.department_id = departments.id AND
departments.location_id = locations.id;` as produced by the external parser:
column references and constants are expression leaves the walker ignores. -/
def updateEmployeesStmt : Stmt :=
  { withClause := none,
    node := .updateStmt (.mk
      (some { relname := some "employees" })
      [.rangeVar (some "departments"), .rangeVar (some "locations")]
      (some (.boolExpr [
        .aExpr (some .otherExpr) (some .otherExpr),
        .aExpr (some .otherExpr) (some .otherExpr)]))
      [some (.aExpr (some .otherExpr) (some .otherExpr))]) }

/-- AST of `TRUNCATE logs, audit_trail;`. -/
def truncateLogsStmt : Stmt :=
  { withClause := none,
    node := .truncateStmt [
      .rangeVar { relname := some "logs" },
      .rangeVar { relname := some "audit_trail" }] }

/-- AST of `UPDATE users SET active = true WHERE id = 1;`. -/
def updateUsersStmt : Stmt :=
  { withClause := none,
    node := .updateStmt (.mk
      (some { relname := some "users" })
      []
      (some (.aExpr (some .otherExpr) (some .otherExpr)))
      [some .otherExpr]) }

/-- AST of `CREATE INDEX CONCURRENTLY idx ON users(email);`. -/
def createIndexUsersStmt : Stmt :=
  { withClause := none,
    node := .indexStmt true (some { relname := some "users" }) }

/-- The analysis of `UPDATE users SET active = true WHERE id = 1;`, produced
by running the extractor and the lock assigner on its AST. -/
def updateUsersAnalysis : QueryAnalysisInput :=
  { query := "UPDATE users SET active = true WHERE id = 1;",
    tables := getTableLockAnalysis (extractFromAST updateUsersStmt).tables
      (extractFromAST updateUsersStmt).command none,
    error := none,
    isValid := true }

/-- The analysis of `CREATE INDEX CONCURRENTLY idx ON users(email);`. -/
def createIndexUsersAnalysis : QueryAnalysisInput :=
  { query := "CREATE INDEX CONCURRENTLY idx ON users(email);",
    tables := getTableLockAnalysis (extractFromAST createIndexUsersStmt).tables
      (extractFromAST createIndexUsersStmt).command none,
    error := none,
    isValid := true }

/-- A valid analysis whose single table holds the SHARE lock (the analysis of
`CREATE INDEX idx ON t(c);`). -/
def shareAnalysis : QueryAnalysisInput :=
  { query := "CREATE INDEX idx ON t(c);",
    tables := getTableLockAnalysis ["t"] "CREATE INDEX" none,
    error := none,
    isValid := true }

/-- An invalid analysis, as produced for unparseable input. -/
def invalidAnalysis : QueryAnalysisInput :=
  { query := "NOT SQL",
    tables := [],
    error := some "Parse error",
    isValid := false }


mutual
/-- Every common-table-expression alias introduced by ANY `WITH` clause
syntactically contained in a SELECT node, including `WITH` clauses nested
inside subqueries (which `extractFromAST` never consults).  The
`deepAliasesOf...` family is the spec-level reading of "a CTE alias of the
same statement", used to state the unscoped CTE exclusion law; compare
`cteAliases`, which covers only the two consulted positions. -/
def deepAliasesOfSelect (s : SelectStmt) : List String :=
  match s with
  | .mk wc _ fromClause whereClause targetList =>
    (match wc with
      | some w => deepAliasesOfWith w
      | none => []) ++
    deepAliasesOfFromList fromClause ++
    (match whereClause with
      | some e => deepAliasesOfExpr e
      | none => []) ++
    deepAliasesOfTargetList targetList

def deepAliasesOfWith (w : WithClause) : List String :=
  match w with
  | .mk ctes => deepAliasesOfCtes ctes

def deepAliasesOfCtes (l : List (Option CommonTableExpr)) : List String :=
  match l with
  | [] => []
  | c :: rest =>
    (match c with
      | some (.mk name q) =>
        (match name with
          | some n => [n]
          | none => []) ++
        (match q with
          | some sq => deepAliasesOfSubquery sq
          | none => [])
      | none => []) ++
    deepAliasesOfCtes rest

def deepAliasesOfFromList (l : List FromItem) : List String :=
  match l with
  | [] => []
  | f :: rest => deepAliasesOfFrom f ++ deepAliasesOfFromList rest

def deepAliasesOfFrom (f : FromItem) : List String :=
  match f with
  | .rangeVar _ => []
  | .joinExpr larg rarg quals =>
    (match larg with
      | some l => deepAliasesOfFrom l
      | none => []) ++
    (match rarg with
      | some r => deepAliasesOfFrom r
      | none => []) ++
    (match quals with
      | some q => deepAliasesOfExpr q
      | none => [])
  | .rangeSubselect subquery =>
    match subquery with
    | some sq => deepAliasesOfSubquery sq
    | none => []
  | .rangeFunction functions => deepAliasesOfFuncs functions
  | .rangeTableFunc docexpr rowexpr =>
    (match docexpr with
      | some e => deepAliasesOfExpr e
      | none => []) ++
    (match rowexpr with
      | some e => deepAliasesOfExpr e
      | none => [])
  | .fromList items => deepAliasesOfFromList items
  | .otherFromItem => []

def deepAliasesOfFuncs (l : List (Option (List Expr))) : List String :=
  match l with
  | [] => []
  | f :: rest =>
    (match f with
      | some items => deepAliasesOfExprList items
      | none => []) ++
    deepAliasesOfFuncs rest

def deepAliasesOfExprList (l : List Expr) : List String :=
  match l with
  | [] => []
  | e :: rest => deepAliasesOfExpr e ++ deepAliasesOfExprList rest

def deepAliasesOfTargetList (l : List (Option Expr)) : List String :=
  match l with
  | [] => []
  | t :: rest =>
    (match t with
      | some e => deepAliasesOfExpr e
      | none => []) ++
    deepAliasesOfTargetList rest

def deepAliasesOfCaseWhens (l : List (Option (Option Expr × Option Expr))) :
    List String :=
  match l with
  | [] => []
  | w :: rest =>
    (match w with
      | some (e, r) =>
        (match e with
          | some e1 => deepAliasesOfExpr e1
          | none => []) ++
        (match r with
          | some r1 => deepAliasesOfExpr r1
          | none => [])
      | none => []) ++
    deepAliasesOfCaseWhens rest

def deepAliasesOfExpr (e : Expr) : List String :=
  match e with
  | .subLink subselect =>
    match subselect with
    | some sq => deepAliasesOfSubquery sq
    | none => []
  | .boolExpr args => deepAliasesOfExprList args
  | .aExpr lexpr rexpr =>
    (match lexpr with
      | some l => deepAliasesOfExpr l
      | none => []) ++
    (match rexpr with
      | some r => deepAliasesOfExpr r
      | none => [])
  | .rowExpr args => deepAliasesOfExprList args
  | .multiAssignRef source =>
    match source with
    | some s => deepAliasesOfExpr s
    | none => []
  | .funcCall args => deepAliasesOfExprList args
  | .caseExpr arg args defresult =>
    (match arg with
      | some a => deepAliasesOfExpr a
      | none => []) ++
    deepAliasesOfCaseWhens args ++
    (match defresult with
      | some d => deepAliasesOfExpr d
      | none => [])
  | .exprList items => deepAliasesOfExprList items
  | .otherExpr => []

def deepAliasesOfSubquery (sq : Subquery) : List String :=
  match sq with
  | .selectStmt s => deepAliasesOfSelect s
  | .insertStmt (.mk _ selIn _) =>
    match selIn with
    | some sq2 => deepAliasesOfSubquery sq2
    | none => []
  | .updateStmt (.mk _ fromClause whereClause targetList) =>
    deepAliasesOfFromList fromClause ++
    (match whereClause with
      | some e => deepAliasesOfExpr e
      | none => []) ++
    deepAliasesOfTargetList targetList
  | .deleteStmt (.mk _ usingClause whereClause) =>
    deepAliasesOfFromList usingClause ++
    (match whereClause with
      | some e => deepAliasesOfExpr e
      | none => [])
  | .otherSubquery => []
end

/-- All CTE aliases introduced anywhere in a statement, nested `WITH` clauses
included. -/
def allCteAliases (statement : Stmt) : List String :=
  (match statement.withClause with
    | some w => deepAliasesOfWith w
    | none => []) ++
  (match statement.node with
    | .selectStmt s => deepAliasesOfSelect s
    | .insertStmt (.mk _ selIn _) =>
      match selIn with
      | some sq => deepAliasesOfSubquery sq
      | none => []
    | .updateStmt (.mk _ fromClause whereClause targetList) =>
      deepAliasesOfFromList fromClause ++
      (match whereClause with
        | some e => deepAliasesOfExpr e
        | none => []) ++
      deepAliasesOfTargetList targetList
    | .deleteStmt (.mk _ usingClause whereClause) =>
      deepAliasesOfFromList usingClause ++
      (match whereClause with
        | some e => deepAliasesOfExpr e
        | none => [])
    | .mergeStmt _ sourceRelation joinCondition =>
      (match sourceRelation with
        | some f => deepAliasesOfFrom f
        | none => []) ++
      (match joinCondition with
        | some e => deepAliasesOfExpr e
        | none => [])
    | _ => [])

/-- AST of `SELECT * FROM (WITH x AS (SELECT * FROM t) SELECT * FROM x) s;`:
a derived-table subquery whose own `WITH` clause introduces the alias `x`. -/
def nestedCteStmt : Stmt :=
  { withClause := none,
    node := .selectStmt (.mk none []
      [.rangeSubselect (some (.selectStmt (.mk
        (some (.mk [some (.mk (some "x")
          (some (.selectStmt (.mk none [] [.rangeVar (some "t")] none []))))]))
        [] [.rangeVar (some "x")] none [])))]
      none []) }

/-- The alias component returned by `cteEach` ignores the table traversal: it
is exactly the alias fold. -/
theorem cteEach_snd (l : List (Option CommonTableExpr)) :
    ∀ tables cteNames, (cteEach l tables cteNames).2 = cteAliasAccum l cteNames := by
  induction l with
  | nil => intro tables cteNames; rfl
  | cons c rest ih =>
    intro tables cteNames
    match c with
    | none => simp only [cteEach, cteAliasAccum]; exact ih _ _
    | some (.mk none q) => simp only [cteEach, cteAliasAccum]; exact ih _ _
    | some (.mk (some n) q) => simp only [cteEach, cteAliasAccum]; exact ih _ _

/-- The alias component returned by `extractTablesFromCTE`. -/
theorem extractTablesFromCTE_snd (wc : WithClause) (tables cteNames : List String) :
    (extractTablesFromCTE wc tables cteNames).2 = cteAliasList wc cteNames := by
  match wc with
  | .mk ctes => exact cteEach_snd ctes tables cteNames

/-- The exclusion set accumulated by `extractAccum` is exactly the set of
aliases of the `WITH` clauses the extractor consults. -/
theorem extractAccum_snd_snd (statement : Stmt) :
    (extractAccum statement).2.2 = cteAliases statement := by
  match statement with
  | .mk wc node =>
    match node with
    | .selectStmt s =>
      match s with
      | .mk swc lockingClause fromClause whereClause targetList =>
        match wc, swc with
        | none, none => rfl
        | none, some w =>
          simp only [extractAccum, cteAliases, extractTablesFromCTE_snd]
        | some w0, none =>
          simp only [extractAccum, cteAliases, extractTablesFromCTE_snd]
        | some w0, some w =>
          simp only [extractAccum, cteAliases, extractTablesFromCTE_snd]
    | .insertStmt i =>
      match wc with
      | none => rfl
      | some w0 => simp only [extractAccum, cteAliases, extractTablesFromCTE_snd]
    | .updateStmt u =>
      match u, wc with
      | .mk _ _ _ _, none => rfl
      | .mk _ _ _ _, some w0 =>
        simp only [extractAccum, cteAliases, extractTablesFromCTE_snd]
    | .deleteStmt d =>
      match d, wc with
      | .mk _ _ _, none => rfl
      | .mk _ _ _, some w0 =>
        simp only [extractAccum, cteAliases, extractTablesFromCTE_snd]
    | .indexStmt _ _ =>
      match wc with
      | none => rfl
      | some w0 => simp only [extractAccum, cteAliases, extractTablesFromCTE_snd]
    | .createTrigStmt _ =>
      match wc with
      | none => rfl
      | some w0 => simp only [extractAccum, cteAliases, extractTablesFromCTE_snd]
    | .refreshMatViewStmt _ _ =>
      match wc with
      | none => rfl
      | some w0 => simp only [extractAccum, cteAliases, extractTablesFromCTE_snd]
    | .dropStmt rt objs =>
      match wc with
      | none => by_cases h : (rt == "OBJECT_TABLE") = true <;>
          simp only [extractAccum, cteAliases, extractTablesFromCTE_snd, h] <;> simp [h]
      | some w0 => by_cases h : (rt == "OBJECT_TABLE") = true <;>
          simp only [extractAccum, cteAliases, extractTablesFromCTE_snd, h] <;> simp [h]
    | .truncateStmt _ =>
      match wc with
      | none => rfl
      | some w0 => simp only [extractAccum, cteAliases, extractTablesFromCTE_snd]
    | .alterTableStmt _ _ =>
      match wc with
      | none => rfl
      | some w0 => simp only [extractAccum, cteAliases, extractTablesFromCTE_snd]
    | .vacuumStmt _ _ =>
      match wc with
      | none => rfl
      | some w0 => simp only [extractAccum, cteAliases, extractTablesFromCTE_snd]
    | .mergeStmt _ _ _ =>
      match wc with
      | none => rfl
      | some w0 => simp only [extractAccum, cteAliases, extractTablesFromCTE_snd]
    | .unknownStmt =>
      match wc with
      | none => rfl
      | some w0 => simp only [extractAccum, cteAliases, extractTablesFromCTE_snd]

/-- C1 fails on the code as stated: a `WITH` clause nested inside a derived
table introduces the alias `x`, the extractor never consults it, and the
returned table list is exactly `["x"]` - a CTE alias of the same statement -
while the consulted-alias exclusion set is empty. -/
theorem nested_cte_alias_leaks :
    (extractFromAST nestedCteStmt).tables = ["x"] ∧
    allCteAliases nestedCteStmt = ["x"] ∧
    cteAliases nestedCteStmt = [] := by
  decide

/-- C1 (amended): no table name in the returned tables list is a name
introduced as a common-table-expression alias by one of the `WITH` clauses the
extractor consults - the statement's top-level `withClause` and the
`withClause` of a top-level SELECT node; aliases of `WITH` clauses nested
inside subqueries are not excluded.  Every consulted alias is recorded in the
exclusion set before its body is descended into (the body traversal already
receives the extended set), and the final table list is the discovered set
minus the consulted-alias set (and minus empty names). -/
theorem extractFromAST_cte_exclusion (statement : Stmt) :
    ((extractFromAST statement).tables =
      (extractAccum statement).2.1.filter
        (fun table => decide (table.length > 0) &&
          !((extractAccum statement).2.2.contains table))) ∧
    (extractAccum statement).2.2 = cteAliases statement ∧
    ((extractFromAST statement).tables.all
      (fun table => !((cteAliases statement).contains table)) = true) ∧
    (∀ (n : String) (q : Option Subquery) (rest : List (Option CommonTableExpr))
        (tables cteNames : List String),
      cteEach (some (.mk (some n) q) :: rest) tables cteNames =
        cteEach rest
          (match q with
            | some sq => extractTablesFromSubquery sq tables (setAdd cteNames n)
            | none => tables)
          (setAdd cteNames n)) := by
  refine ⟨rfl, extractAccum_snd_snd statement, ?_, fun n q rest tables cteNames => rfl⟩
  rw [List.all_eq_true]
  intro table htable
  have hmem : table ∈ (extractAccum statement).2.1.filter
      (fun table => decide (table.length > 0) &&
        !((extractAccum statement).2.2.contains table)) := htable
  have hp := List.of_mem_filter hmem
  have h2 := (Bool.and_eq_true _ _).mp hp |>.2
  rw [extractAccum_snd_snd statement] at h2
  exact h2

/-- C2: The conflict relation of the Lock Mode Registry is symmetric on all
8 by 8 pairs of the eight lock modes, and consequently `checkLockConflict` is
symmetric on all mode-name strings. -/
theorem lockModes_conflict_symmetric :
    (LOCK_MODES.all (fun A => LOCK_MODES.all (fun B =>
      A.2.conflicts.contains B.1 == B.2.conflicts.contains A.1)) = true) ∧
    (∀ a b : String, checkLockConflict a b = checkLockConflict b a) := by
  refine ⟨by decide, fun a b => ?_⟩
  unfold checkLockConflict
  cases ha : alookup LOCK_MODES a <;> cases hb : alookup LOCK_MODES b <;>
    simp [Bool.or_comm]

/-- C4 fails on the code: comparing the analysis of
`UPDATE users SET active = true WHERE id = 1;` with the analysis of
`CREATE INDEX CONCURRENTLY idx ON users(email);` does NOT flag the shared
table `users` as conflicting; the comparison is reported compatible. -/
theorem update_vs_concurrent_index_not_conflicting :
    (extractFromAST updateUsersStmt).tables = ["users"] ∧
    (extractFromAST createIndexUsersStmt).tables = ["users"] ∧
    (compareQueries updateUsersAnalysis createIndexUsersAnalysis).isCompatible = true ∧
    (compareQueries updateUsersAnalysis createIndexUsersAnalysis).conflictingTables = [] := by
  decide

/-- C4 (amended): in that comparison the shared table `users` carries
ROW EXCLUSIVE on one side and SHARE UPDATE EXCLUSIVE on the other, these two
modes do not conflict in the registry, so `users` is reported in
`compatibleTables` and the comparison is compatible with no unique tables. -/
theorem update_vs_concurrent_index_compatible :
    updateUsersAnalysis.tables.map (fun i => (i.table, i.lockMode)) =
      [("users", "ROW EXCLUSIVE")] ∧
    createIndexUsersAnalysis.tables.map (fun i => (i.table, i.lockMode)) =
      [("users", "SHARE UPDATE EXCLUSIVE")] ∧
    checkLockConflict "ROW EXCLUSIVE" "SHARE UPDATE EXCLUSIVE" = false ∧
    (compareQueries updateUsersAnalysis createIndexUsersAnalysis).isCompatible = true ∧
    (compareQueries updateUsersAnalysis createIndexUsersAnalysis).conflictingTables = [] ∧
    (compareQueries updateUsersAnalysis createIndexUsersAnalysis).compatibleTables =
      [{ table := "users", query1Lock := "ROW EXCLUSIVE",
         query2Lock := "SHARE UPDATE EXCLUSIVE" }] ∧
    (compareQueries updateUsersAnalysis createIndexUsersAnalysis).uniqueTables =
      { query1Only := [], query2Only := [] } := by
  decide

/-- C5: the multi-source UPDATE scenario extracts exactly
employees, departments, locations (in discovery order), and the lock assigner
gives the target table ROW EXCLUSIVE and the merely-read tables ACCESS SHARE. -/
theorem update_from_clause_roles :
    extractFromAST updateEmployeesStmt =
      { command := "UPDATE", tables := ["employees", "departments", "locations"] } ∧
    (getTableLockAnalysis (extractFromAST updateEmployeesStmt).tables
        (extractFromAST updateEmployeesStmt).command none).map
      (fun i => (i.table, i.lockMode)) =
      [("employees", "ROW EXCLUSIVE"), ("departments", "ACCESS SHARE"),
       ("locations", "ACCESS SHARE")] := by
  decide

/-- C7: whenever either input analysis is invalid, `compareQueries` returns
the fixed conservative result: incompatible with no per-table detail. -/
theorem compareQueries_invalid (q1 q2 : QueryAnalysisInput)
    (h : q1.isValid = false ∨ q2.isValid = false) :
    compareQueries q1 q2 =
      { isCompatible := false, conflictingTables := [], compatibleTables := [],
        uniqueTables := { query1Only := [], query2Only := [] } } := by
  unfold compareQueries
  rcases h with h | h <;> simp [h]

/-- Witness for C7 at a concrete invalid input. -/
theorem compareQueries_invalid_witness :
    (invalidAnalysis.isValid = false ∨ shareAnalysis.isValid = false) ∧
    compareQueries invalidAnalysis shareAnalysis =
      { isCompatible := false, conflictingTables := [], compatibleTables := [],
        uniqueTables := { query1Only := [], query2Only := [] } } :=
  ⟨Or.inl rfl, compareQueries_invalid invalidAnalysis shareAnalysis (Or.inl rfl)⟩

/-- C8: an unrecognized statement node degrades to the `UNKNOWN` sentinel
while keeping the tables extracted from a top-level `WITH` clause, and the
lock-mode lookup for `UNKNOWN` reports failure (`none`) instead of guessing. -/
theorem unknown_statement_degrades :
    getLockAnalysis "UNKNOWN" = none ∧
    alookup COMMAND_LOCKS "UNKNOWN" = none ∧
    (∀ w : WithClause,
      extractFromAST { withClause := some w, node := .unknownStmt } =
        { command := "UNKNOWN",
          tables := (extractTablesFromCTE w [] []).1.filter
            (fun table => decide (table.length > 0) &&
              !((extractTablesFromCTE w [] []).2.contains table)) }) ∧
    extractFromAST { withClause := none, node := .unknownStmt } =
      { command := "UNKNOWN", tables := [] } := by
  exact ⟨by decide, by decide, fun w => rfl, rfl⟩

/-- C9: `checkLockConflict` treats any pair with an unknown lock-mode name as
compatible (false), rather than conservatively as conflicting. -/
theorem checkLockConflict_unknown_modes (a b : String)
    (h : alookup LOCK_MODES a = none ∨ alookup LOCK_MODES b = none) :
    checkLockConflict a b = false := by
  unfold checkLockConflict
  rcases h with h | h
  · cases hb : alookup LOCK_MODES b <;> simp [h, hb]
  · cases ha : alookup LOCK_MODES a <;> simp [h, ha]

/-- Witness for C9 at a concrete unknown mode name. -/
theorem checkLockConflict_unknown_modes_witness :
    (alookup LOCK_MODES "ADVISORY" = none ∨ alookup LOCK_MODES "ACCESS SHARE" = none) ∧
    checkLockConflict "ADVISORY" "ACCESS SHARE" = false :=
  ⟨Or.inl (by decide), checkLockConflict_unknown_modes "ADVISORY" "ACCESS SHARE" (Or.inl (by decide))⟩

/-- Under the `TRUNCATE` command with no hint, the per-table lock choice is
always ACCESS EXCLUSIVE. -/
theorem tableLockFor_truncate (t : String) (allTables : List String) :
    tableLockFor t "TRUNCATE" none allTables = "ACCESS EXCLUSIVE" := rfl

/-- The `getTableLockAnalysis` loop under `TRUNCATE` assigns ACCESS EXCLUSIVE
to every table, in order. -/
theorem tableLockLoop_truncate (ts : List String) (allTables : List String) :
    (tableLockLoop ts "TRUNCATE" none allTables).map (fun i => (i.table, i.lockMode)) =
      ts.map (fun t => (t, "ACCESS EXCLUSIVE")) := by
  induction ts with
  | nil => rfl
  | cons t rest ih =>
    have hstep : tableLockLoop (t :: rest) "TRUNCATE" none allTables =
        { table := t, lockMode := "ACCESS EXCLUSIVE",
          description := "Conflicts with ALL lock modes. The most restrictive lock.",
          conflicts := ["ACCESS SHARE", "ROW SHARE", "ROW EXCLUSIVE",
            "SHARE UPDATE EXCLUSIVE", "SHARE", "SHARE ROW EXCLUSIVE", "EXCLUSIVE",
            "ACCESS EXCLUSIVE"] } :: tableLockLoop rest "TRUNCATE" none allTables := rfl
    rw [hstep, List.map_cons, List.map_cons, ih]

/-- C6: a TRUNCATE statement is classified `TRUNCATE`, every extracted table is
treated as primary, and every one of them is assigned the strongest lock mode
ACCESS EXCLUSIVE (checked generally and on `TRUNCATE logs, audit_trail;`). -/
theorem truncate_all_primary :
    (∀ (wc : Option WithClause) (relations : List TruncRel),
      (extractFromAST { withClause := wc, node := .truncateStmt relations }).command =
        "TRUNCATE") ∧
    (∀ tables : List String,
      tables.all (fun t => isPrimaryTable t "TRUNCATE" none tables) = true) ∧
    (∀ tables : List String,
      (getTableLockAnalysis tables "TRUNCATE" none).map (fun i => (i.table, i.lockMode)) =
        tables.map (fun t => (t, "ACCESS EXCLUSIVE"))) ∧
    (extractFromAST truncateLogsStmt).tables = ["logs", "audit_trail"] ∧
    (getTableLockAnalysis (extractFromAST truncateLogsStmt).tables
        (extractFromAST truncateLogsStmt).command none).map
      (fun i => (i.table, i.lockMode)) =
      [("logs", "ACCESS EXCLUSIVE"), ("audit_trail", "ACCESS EXCLUSIVE")] := by
  refine ⟨fun wc relations => ?_, fun tables => ?_, fun tables => ?_, by decide, by decide⟩
  · cases wc <;> rfl
  · rw [List.all_eq_true]
    intro t ht
    rfl
  · exact tableLockLoop_truncate tables tables

/-- `alookup` only returns bindings that are in the list. -/
theorem alookup_mem {α : Type} (l : List (String × α)) (k : String) (v : α)
    (h : alookup l k = some v) : (k, v) ∈ l := by
  induction l with
  | nil => simp [alookup] at h
  | cons p rest ih =>
    obtain ⟨k0, v0⟩ := p
    by_cases hk : (k0 == k) = true
    · rw [alookup, if_pos hk] at h
      obtain rfl : v0 = v := by injection h
      have hkeq : k0 = k := by simpa using hk
      subst hkeq
      exact List.mem_cons_self _ _
    · rw [alookup, if_neg hk] at h
      exact List.mem_cons_of_mem _ (ih h)

/-- Every value stored in `COMMAND_LOCKS` is a key of `LOCK_MODES`. -/
theorem commandLocks_values_good :
    COMMAND_LOCKS.all (fun p => (alookup LOCK_MODES p.2).isSome) = true := by decide

/-- The `commandLockMode || 'ACCESS SHARE'` fallback always lands on a key of
`LOCK_MODES`. -/
theorem orDefault_isSome (c : String) :
    (alookup LOCK_MODES (orDefault (alookup COMMAND_LOCKS c) "ACCESS SHARE")).isSome =
      true := by
  cases h : alookup COMMAND_LOCKS c with
  | none => decide
  | some v =>
    have hv : (alookup LOCK_MODES v).isSome = true := by
      have hmem := alookup_mem COMMAND_LOCKS c v h
      have hall := commandLocks_values_good
      rw [List.all_eq_true] at hall
      exact hall _ hmem
    simp only [orDefault]
    by_cases hlen : (v.length != 0) = true
    · rw [if_pos hlen]; exact hv
    · rw [if_neg hlen]; decide

/-- Whatever the command and hint, the lock mode chosen for a table is always
a key of `LOCK_MODES`, so the drop branch of the loop is unreachable. -/
theorem tableLockFor_isSome (table command : String) (primaryTable : Option String)
    (allTables : List String) :
    (alookup LOCK_MODES (tableLockFor table command primaryTable allTables)).isSome =
      true := by
  unfold tableLockFor
  split
  · split <;> decide
  · split
    · exact orDefault_isSome command
    · split
      · exact orDefault_isSome command
      · decide

/-- The `getTableLockAnalysis` loop emits exactly one entry per input table,
carrying that table name, in order. -/
theorem tableLockLoop_tables (ts : List String) (command : String)
    (primaryTable : Option String) (allTables : List String) :
    (tableLockLoop ts command primaryTable allTables).map (fun i => i.table) = ts := by
  induction ts with
  | nil => rfl
  | cons t rest ih =>
    have h := tableLockFor_isSome t command primaryTable allTables
    rw [tableLockLoop]
    cases hl : alookup LOCK_MODES (tableLockFor t command primaryTable allTables) with
    | none => rw [hl] at h; simp at h
    | some info => simp only [hl, List.singleton_append, List.map_cons, ih]

/-- C10: `getTableLockAnalysis` returns exactly one entry per input table in
input order; every lock mode it can assign is a key of `LOCK_MODES` (including
every `COMMAND_LOCKS` value and the ACCESS SHARE fallback), so the branch that
would silently drop a table is unreachable. -/
theorem getTableLockAnalysis_total :
    (∀ (tables : List String) (command : String) (primaryTable : Option String),
      (getTableLockAnalysis tables command primaryTable).map (fun i => i.table) =
        tables) ∧
    (∀ (table command : String) (primaryTable : Option String)
        (allTables : List String),
      (alookup LOCK_MODES (tableLockFor table command primaryTable allTables)).isSome =
        true) ∧
    COMMAND_LOCKS.all (fun p => (alookup LOCK_MODES p.2).isSome) = true := by
  refine ⟨fun tables command primaryTable => ?_, tableLockFor_isSome, by decide⟩
  exact tableLockLoop_tables tables command primaryTable tables

/-- Folding `setAdd` over elements already present leaves the set unchanged. -/
theorem foldl_setAdd_subsumed (l : List String) :
    ∀ acc, (∀ x ∈ l, x ∈ acc) → l.foldl setAdd acc = acc := by
  induction l with
  | nil => intro acc _; rfl
  | cons x rest ih =>
    intro acc h
    rw [List.foldl_cons]
    have hx : setAdd acc x = acc := by
      unfold setAdd
      rw [if_pos (h x (List.mem_cons_self _ _))]
    rw [hx]
    exact ih acc (fun y hy => h y (List.mem_cons_of_mem _ hy))

/-- Folding `setAdd` over fresh, duplicate-free elements appends them all. -/
theorem foldl_setAdd_fresh (l : List String) :
    ∀ acc, l.Nodup → (∀ x ∈ l, x ∉ acc) → l.foldl setAdd acc = acc ++ l := by
  induction l with
  | nil => intro acc _ _; simp
  | cons x rest ih =>
    intro acc hnd h
    rw [List.foldl_cons]
    have hx : setAdd acc x = acc ++ [x] := by
      unfold setAdd
      rw [if_neg (h x (List.mem_cons_self _ _))]
    rw [hx]
    rw [ih (acc ++ [x]) (List.nodup_cons.mp hnd).2]
    · simp
    · intro y hy
      rw [List.mem_append, List.mem_singleton]
      rintro (hacc | rfl)
      · exact h y (List.mem_cons_of_mem _ hy) hacc
      · exact (List.nodup_cons.mp hnd).1 hy

/-- Insertion-ordered deduplication of a duplicated duplicate-free list. -/
theorem dedupAppend_self_append (l : List String) (h : l.Nodup) :
    dedupAppend (l ++ l) = l := by
  unfold dedupAppend
  rw [List.foldl_append]
  rw [foldl_setAdd_fresh l [] h (by simp)]
  rw [List.nil_append]
  exact foldl_setAdd_subsumed l l (fun x hx => hx)

/-- `mapSet` either keeps the key list unchanged (overwrite) or appends the
new key. -/
theorem mapSet_fst (m : List (String × TableLockInfo)) (k : String) (v : TableLockInfo) :
    (mapSet m k v).map (fun p => p.1) =
      if m.any (fun p => p.1 == k) then m.map (fun p => p.1)
      else m.map (fun p => p.1) ++ [k] := by
  unfold mapSet
  split
  · rw [List.map_map]
    apply List.map_congr_left
    intro p _
    by_cases hpk : (p.1 == k) = true
    · have : p.1 = k := by simpa using hpk
      simp [Function.comp, hpk, this]
    · simp [Function.comp, hpk]
  · simp

/-- The key list of the map built by `buildTableMap` has no duplicates. -/
theorem buildTableMap_fst_nodup_aux (ts : List TableLockInfo) :
    ∀ m : List (String × TableLockInfo), (m.map (fun p => p.1)).Nodup →
      ((ts.foldl (fun m t => mapSet m t.table t) m).map (fun p => p.1)).Nodup := by
  induction ts with
  | nil => intro m h; exact h
  | cons t rest ih =>
    intro m h
    rw [List.foldl_cons]
    apply ih
    rw [mapSet_fst]
    split
    · exact h
    · rename_i hany
      rw [List.nodup_append]
      refine ⟨h, List.nodup_singleton _, ?_⟩
      intro a ha hb
      rw [List.mem_singleton] at hb
      subst hb
      rw [List.mem_map] at ha
      obtain ⟨p, hp, hpa⟩ := ha
      apply hany
      rw [List.any_eq_true]
      exact ⟨p, hp, by simp [hpa]⟩

/-- The key list of `buildTableMap` has no duplicates. -/
theorem buildTableMap_fst_nodup (ts : List TableLockInfo) :
    ((buildTableMap ts).map (fun p => p.1)).Nodup :=
  buildTableMap_fst_nodup_aux ts [] (by simp)

/-- `alookup` at the head key. -/
theorem alookup_cons_self {α : Type} (k : String) (v : α) (rest : List (String × α)) :
    alookup ((k, v) :: rest) k = some v := by
  rw [alookup, if_pos (beq_self_eq_true k)]

/-- `alookup` skips a head entry with a different key. -/
theorem alookup_cons_ne {α : Type} (k0 : String) (v0 : α) (rest : List (String × α))
    (k : String) (h : k0 ≠ k) : alookup ((k0, v0) :: rest) k = alookup rest k := by
  rw [alookup, if_neg]
  simp [h]

/-- Dropping a map entry whose key is consulted by none of the names leaves
`compareLoop` unchanged. -/
theorem compareLoop_cons_not_mem (names : List String) (k0 : String)
    (v0 : TableLockInfo) (m : List (String × TableLockInfo)) (h : k0 ∉ names) :
    compareLoop names ((k0, v0) :: m) ((k0, v0) :: m) = compareLoop names m m := by
  induction names with
  | nil => rfl
  | cons n rest ih =>
    have hn : k0 ≠ n := fun he => h (he ▸ List.mem_cons_self _ _)
    have hrest : k0 ∉ rest := fun hm => h (List.mem_cons_of_mem _ hm)
    rw [compareLoop, compareLoop, alookup_cons_ne _ _ _ _ hn, ih hrest]

/-- Running the comparison loop of a map against itself over its own keys
splits its entries into self-conflicting and self-compatible ones and leaves
both unique-table lists empty. -/
theorem compareLoop_self (m : List (String × TableLockInfo))
    (h : (m.map (fun p => p.1)).Nodup) :
    compareLoop (m.map (fun p => p.1)) m m =
      (m.filterMap (fun p =>
        if checkLockConflict p.2.lockMode p.2.lockMode then
          some { table := p.1, query1Lock := p.2.lockMode, query2Lock := p.2.lockMode,
                 conflictReason := p.2.lockMode ++ " conflicts with " ++ p.2.lockMode }
        else none),
       m.filterMap (fun p =>
        if checkLockConflict p.2.lockMode p.2.lockMode then none
        else some { table := p.1, query1Lock := p.2.lockMode,
                    query2Lock := p.2.lockMode }),
       [], []) := by
  induction m with
  | nil => rfl
  | cons p rest ih =>
    obtain ⟨k0, v0⟩ := p
    rw [List.map_cons] at h ⊢
    have hk : k0 ∉ rest.map (fun p => p.1) := (List.nodup_cons.mp h).1
    have hnd : (rest.map (fun p => p.1)).Nodup := (List.nodup_cons.mp h).2
    rw [compareLoop, alookup_cons_self, compareLoop_cons_not_mem _ _ _ _ hk, ih hnd]
    by_cases hc : checkLockConflict v0.lockMode v0.lockMode = true
    · simp [hc, List.filterMap_cons]
    · simp [hc, List.filterMap_cons]

/-- C3 fails on the code as stated: SHARE is one of the four strongest of the
eight registry modes (positions 5 to 8 in the registry order), yet comparing a
valid SHARE-lock analysis with itself reports its shared table as compatible,
because SHARE does not conflict with itself (self-conflict holds for
SHARE UPDATE EXCLUSIVE, the fourth-weakest mode, instead). -/
theorem compare_self_share_not_conflicting :
    (LOCK_MODES.map (fun p => p.1)).drop 4 =
      ["SHARE", "SHARE ROW EXCLUSIVE", "EXCLUSIVE", "ACCESS EXCLUSIVE"] ∧
    shareAnalysis.isValid = true ∧
    shareAnalysis.tables.map (fun i => (i.table, i.lockMode)) = [("t", "SHARE")] ∧
    checkLockConflict "SHARE" "SHARE" = false ∧
    (compareQueries shareAnalysis shareAnalysis).conflictingTables = [] ∧
    (compareQueries shareAnalysis shareAnalysis).compatibleTables =
      [{ table := "t", query1Lock := "SHARE", query2Lock := "SHARE" }] := by
  decide

/-- C3 (amended): comparing a valid analysis with itself reports each shared
table as conflicting if and only if that table's lock mode conflicts with
itself — which holds for exactly four of the eight modes (SHARE UPDATE
EXCLUSIVE, SHARE ROW EXCLUSIVE, EXCLUSIVE, ACCESS EXCLUSIVE) and fails for
the other four — and both unique-table lists are empty. -/
theorem compareQueries_self_diagonal (Q : QueryAnalysisInput) (h : Q.isValid = true) :
    (compareQueries Q Q).uniqueTables.query1Only = [] ∧
    (compareQueries Q Q).uniqueTables.query2Only = [] ∧
    (compareQueries Q Q).conflictingTables =
      (buildTableMap Q.tables).filterMap (fun p =>
        if checkLockConflict p.2.lockMode p.2.lockMode then
          some { table := p.1, query1Lock := p.2.lockMode, query2Lock := p.2.lockMode,
                 conflictReason := p.2.lockMode ++ " conflicts with " ++ p.2.lockMode }
        else none) ∧
    (compareQueries Q Q).compatibleTables =
      (buildTableMap Q.tables).filterMap (fun p =>
        if checkLockConflict p.2.lockMode p.2.lockMode then none
        else some { table := p.1, query1Lock := p.2.lockMode,
                    query2Lock := p.2.lockMode }) ∧
    (LOCK_MODES.map (fun p => p.1)).filter (fun n => checkLockConflict n n) =
      ["SHARE UPDATE EXCLUSIVE", "SHARE ROW EXCLUSIVE", "EXCLUSIVE",
       "ACCESS EXCLUSIVE"] := by
  have hnd := buildTableMap_fst_nodup Q.tables
  have hall : dedupAppend ((buildTableMap Q.tables).map (fun p => p.1) ++
      (buildTableMap Q.tables).map (fun p => p.1)) =
      (buildTableMap Q.tables).map (fun p => p.1) :=
    dedupAppend_self_append _ hnd
  have hloop := compareLoop_self (buildTableMap Q.tables) hnd
  unfold compareQueries
  rw [h]
  simp only [Bool.not_true, Bool.false_or, Bool.or_self, if_neg (by simp : ¬(false = true))]
  rw [hall, hloop]
  exact ⟨rfl, rfl, rfl, rfl, by decide⟩

/-- Witness for C3 (amended) at a concrete valid analysis. -/
theorem compareQueries_self_diagonal_witness :
    shareAnalysis.isValid = true ∧
    ((compareQueries shareAnalysis shareAnalysis).uniqueTables.query1Only = [] ∧
     (compareQueries shareAnalysis shareAnalysis).uniqueTables.query2Only = [] ∧
     (compareQueries shareAnalysis shareAnalysis).conflictingTables =
       (buildTableMap shareAnalysis.tables).filterMap (fun p =>
         if checkLockConflict p.2.lockMode p.2.lockMode then
           some { table := p.1, query1Lock := p.2.lockMode, query2Lock := p.2.lockMode,
                  conflictReason := p.2.lockMode ++ " conflicts with " ++ p.2.lockMode }
         else none) ∧
     (compareQueries shareAnalysis shareAnalysis).compatibleTables =
       (buildTableMap shareAnalysis.tables).filterMap (fun p =>
         if checkLockConflict p.2.lockMode p.2.lockMode then none
         else some { table := p.1, query1Lock := p.2.lockMode,
                     query2Lock := p.2.lockMode }) ∧
     (LOCK_MODES.map (fun p => p.1)).filter (fun n => checkLockConflict n n) =
       ["SHARE UPDATE EXCLUSIVE", "SHARE ROW EXCLUSIVE", "EXCLUSIVE",
        "ACCESS EXCLUSIVE"]) :=
  ⟨rfl, compareQueries_self_diagonal shareAnalysis rfl⟩
